import Mathlib

/-!
Shallow embedding of `pkg/k8s.io/api/resource/dynamic_resources_podman_types.go`
(package `resource`): the dynamic-resources manager with its two name-keyed
registries (claim parameter sets and resource-claim templates) and the
three-stage resolution pipeline turning a pod resource-claim reference into a
device string.

Go maps `map[string]V` are embedded as association lists `List (String × V)`
with `List.lookup`; Go `(T, error)` multi-returns are embedded as
`T × Option String`, the error being `none` exactly when Go returns `nil`,
and the accompanying value being the Go zero value on the error paths, just
as the source writes it. Error messages are the exact strings the Go code
builds with `fmt.Errorf`.
-/

namespace Resource

/-- String constants of the package (source lines 11-19). -/
def PodmanResourceClassName : String := "PodmanResourceClass"

def ClaimParametersKind : String := "ClaimParameters"

def CDIClaimParametersApiVersion : String := "cdi.resource.podman.io/v1"

def CDIResourceClassName : String := "cdidevice.podman.io"

def SimpleDeviceClaimParametersApiVersion : String := "simpledevice.resource.podman.io/v1"

def SimpleDeviceResourceClassName : String := "simpledevice.podman.io"

/-- Modelled from the spec: standard object metadata
(`metav1.ObjectMeta`, external to this file); only the `Name` field is read
by the engine. -/
structure ObjectMeta where
  name : String
  deriving DecidableEq, Repr

/-- Modelled from the spec: type metadata (`metav1.TypeMeta`, external to
this file); the engine reads the `APIVersion` discriminator from it. -/
structure TypeMeta where
  kind : String
  apiVersion : String
  deriving DecidableEq, Repr

/-- The `ClaimParameters` struct (source lines 21-35): embedded `TypeMeta`
and `ObjectMeta` plus the schema-dependent string-to-string `Spec` map. -/
structure ClaimParameters where
  typeMeta : TypeMeta
  objectMeta : ObjectMeta
  spec : List (String × String)
  deriving DecidableEq, Repr

/-- Go field promotion of the embedded `ObjectMeta.Name`. -/
def ClaimParameters.name (p : ClaimParameters) : String :=
  p.objectMeta.name

/-- Go field promotion of the embedded `TypeMeta.APIVersion`. -/
def ClaimParameters.apiVersion (p : ClaimParameters) : String :=
  p.typeMeta.apiVersion

/-- Modelled from the spec: reference from a template to the name of a
`ClaimParameters` entry (`v1alpha2.ResourceClaimParametersReference`,
external to this file); only its `Name` is read. -/
structure ResourceClaimParametersReference where
  name : String
  deriving DecidableEq, Repr

/-- Modelled from the spec: the spec of a resource-claim template
(`v1alpha2.ResourceClaimSpec`, external to this file); the engine reads
`ParametersRef` from it. -/
structure ResourceClaimSpec where
  parametersRef : ResourceClaimParametersReference
  deriving DecidableEq, Repr

/-- Modelled from the spec: a resource-claim template
(`v1alpha2.ResourceClaim`, external to this file), a named declaration
pointing at a parameter set by name. -/
structure ResourceClaim where
  typeMeta : TypeMeta
  objectMeta : ObjectMeta
  spec : ResourceClaimSpec
  deriving DecidableEq, Repr

/-- Go field promotion of the embedded `ObjectMeta.Name`. -/
def ResourceClaim.name (rt : ResourceClaim) : String :=
  rt.objectMeta.name

/-- The Go zero value `v1alpha2.ResourceClaim` returned on error paths. -/
def zeroResourceClaim : ResourceClaim :=
  ⟨⟨"", ""⟩, ⟨""⟩, ⟨⟨""⟩⟩⟩

/-- Modelled from the spec: the claim source carried by a pod resource claim
(`v1.ClaimSource`, external to this file): at most one of a direct resource
claim name and a resource-claim template name, Go pointers embedded as
`Option`. -/
structure ClaimSource where
  resourceClaimName : Option String
  resourceClaimTemplateName : Option String
  deriving DecidableEq, Repr

/-- Modelled from the spec: a pod-level resource claim reference
(`v1.PodResourceClaim`, external to this file, consumed read-only). -/
structure PodResourceClaim where
  name : String
  source : ClaimSource
  deriving DecidableEq, Repr

/-- The `DynamicResourcesManager` struct (source lines 37-41): the two
name-keyed registries. -/
structure DynamicResourcesManager where
  resourceClaimParameters : List (String × ClaimParameters)
  resourceClaimTemplates : List (String × ResourceClaim)
  deriving DecidableEq, Repr

/-- `NewDynamicDevicesResourceManager` (source lines 43-49): both
registries start empty. -/
def NewDynamicDevicesResourceManager : DynamicResourcesManager :=
  ⟨[], []⟩

/-- `AddClaimParameters` (source lines 50-56): fails on a duplicate name,
otherwise stores the entry under its name. The Go method mutates the
receiver's map and returns an error; here the updated manager is returned
alongside the error, the manager being unchanged on the error path. -/
def AddClaimParameters (dm : DynamicResourcesManager)
    (p : ClaimParameters) : DynamicResourcesManager × Option String :=
  match dm.resourceClaimParameters.lookup p.name with
  | some _ => (dm, some "duplicate resource claim parameters defined")
  | none =>
      ({ dm with
          resourceClaimParameters :=
            (p.name, p) :: dm.resourceClaimParameters }, none)

/-- `AddResourceClaimTemplate` (source lines 58-65): same contract shape as
`AddClaimParameters`, keyed by the template name. -/
def AddResourceClaimTemplate (dm : DynamicResourcesManager)
    (rt : ResourceClaim) : DynamicResourcesManager × Option String :=
  match dm.resourceClaimTemplates.lookup rt.name with
  | some _ => (dm, some "duplicate resource claim template defined")
  | none =>
      ({ dm with
          resourceClaimTemplates :=
            (rt.name, rt) :: dm.resourceClaimTemplates }, none)

/-- The local format template `errorMsgTmpl` of
`ResolveK8sPodResourceClaimToDevice` (source line 85):
`fmt.Errorf("failed to resolve resource claim to device: %s", s)`. -/
def errorMsgTmpl (s : String) : String :=
  "failed to resolve resource claim to device: " ++ s

/-- The local format template `errTmpl` of the CDI branch of
`resolveResourceClaimTemplateToDevice` (source line 132):
`fmt.Errorf("missing %s parameter of CDI claim parameter resource", s)`. -/
def errTmpl (s : String) : String :=
  "missing " ++ s ++ " parameter of CDI claim parameter resource"

/-- `resolveK8sPodResourceClaimToResourceClaimTemplate` (source lines
99-115): fail if the claim source carries no template name, otherwise look
the template up in the template registry. -/
def resolveK8sPodResourceClaimToResourceClaimTemplate
    (dm : DynamicResourcesManager) (claim : PodResourceClaim) :
    ResourceClaim × Option String :=
  match claim.source.resourceClaimTemplateName with
  | none => (zeroResourceClaim, some "claim source missing template name")
  | some tn =>
      match dm.resourceClaimTemplates.lookup tn with
      | none => (zeroResourceClaim, some "Pod Resource Claim Source not found")
      | some rt => (rt, none)

/-- `resolveResourceClaimTemplateToDevice` (source lines 117-147): look the
template's `ParametersRef.Name` up in the parameter registry, then dispatch
on the parameter set's `APIVersion`: the simple-device schema requires
`hostpath` and returns it verbatim; the CDI schema requires `device`,
`vendor`, `name` in that order and returns `vendor/device=name`; any other
version is unsupported. -/
def resolveResourceClaimTemplateToDevice (dm : DynamicResourcesManager)
    (rt : ResourceClaim) : String × Option String :=
  match dm.resourceClaimParameters.lookup rt.spec.parametersRef.name with
  | none => ("", some "failed to resolve resource claim parameters")
  | some parameters =>
      if parameters.apiVersion = SimpleDeviceClaimParametersApiVersion then
        match parameters.spec.lookup "hostpath" with
        | none =>
            ("", some "missing hostpath in simple device resource claim parameters")
        | some device => (device, none)
      else if parameters.apiVersion = CDIClaimParametersApiVersion then
        match parameters.spec.lookup "device" with
        | none => ("", some (errTmpl "device"))
        | some devicePart =>
            match parameters.spec.lookup "vendor" with
            | none => ("", some (errTmpl "vendor"))
            | some vendorPart =>
                match parameters.spec.lookup "name" with
                | none => ("", some (errTmpl "name"))
                | some namePart =>
                    (vendorPart ++ "/" ++ devicePart ++ "=" ++ namePart, none)
      else
        ("", some ("unsupported resource claim parameter apiVersion: "
          ++ parameters.apiVersion))

/-- `ResolveK8sPodResourceClaimToDevice` (source lines 84-97): reject a
claim whose direct resource-claim name is set, resolve the claim to a
template (wrapping a failure in `errorMsgTmpl`), then resolve the template
to a device. -/
def ResolveK8sPodResourceClaimToDevice (dm : DynamicResourcesManager)
    (claim : PodResourceClaim) : String × Option String :=
  match claim.source.resourceClaimName with
  | some _ => ("", some (errorMsgTmpl "resource claim should be nil"))
  | none =>
      match resolveK8sPodResourceClaimToResourceClaimTemplate dm claim with
      | (_, some err) => ("", some (errorMsgTmpl err))
      | (rt, none) => resolveResourceClaimTemplateToDevice dm rt

/-! Concrete fixture values used to instantiate the theorems below. -/

/-- A simple-device parameter set with a `hostpath` entry. -/
def simpleParamsW : ClaimParameters :=
  ⟨⟨ClaimParametersKind, SimpleDeviceClaimParametersApiVersion⟩,
    ⟨"simple-params"⟩, [("hostpath", "/dev/foo")]⟩

/-- A simple-device parameter set with no `hostpath` entry. -/
def noHostpathParamsW : ClaimParameters :=
  ⟨⟨ClaimParametersKind, SimpleDeviceClaimParametersApiVersion⟩,
    ⟨"nohostpath-params"⟩, []⟩

/-- A CDI parameter set with all three required keys. -/
def cdiParamsW : ClaimParameters :=
  ⟨⟨ClaimParametersKind, CDIClaimParametersApiVersion⟩,
    ⟨"cdi-params"⟩, [("vendor", "acme"), ("device", "gpu"), ("name", "0")]⟩

/-- A CDI parameter set containing `device` and `name` but not `vendor`. -/
def noVendorParamsW : ClaimParameters :=
  ⟨⟨ClaimParametersKind, CDIClaimParametersApiVersion⟩,
    ⟨"novendor-params"⟩, [("device", "gpu"), ("name", "0")]⟩

/-- A parameter set with an unrecognized schema version whose spec contains
all four keys the two recognized schemas ever read. -/
def unknownSchemaParamsW : ClaimParameters :=
  ⟨⟨ClaimParametersKind, "bogus.resource.podman.io/v1"⟩,
    ⟨"unknown-params"⟩,
    [("hostpath", "/dev/foo"), ("vendor", "acme"),
      ("device", "gpu"), ("name", "0")]⟩

/-- Template referencing the simple-device parameter set. -/
def simpleTemplateW : ResourceClaim :=
  ⟨⟨"", ""⟩, ⟨"simple-template"⟩, ⟨⟨"simple-params"⟩⟩⟩

/-- Template referencing the hostpath-less parameter set. -/
def noHostpathTemplateW : ResourceClaim :=
  ⟨⟨"", ""⟩, ⟨"nohostpath-template"⟩, ⟨⟨"nohostpath-params"⟩⟩⟩

/-- Template referencing the complete CDI parameter set. -/
def cdiTemplateW : ResourceClaim :=
  ⟨⟨"", ""⟩, ⟨"cdi-template"⟩, ⟨⟨"cdi-params"⟩⟩⟩

/-- Template referencing the vendor-less CDI parameter set. -/
def noVendorTemplateW : ResourceClaim :=
  ⟨⟨"", ""⟩, ⟨"novendor-template"⟩, ⟨⟨"novendor-params"⟩⟩⟩

/-- Template referencing the unrecognized-schema parameter set. -/
def unknownSchemaTemplateW : ResourceClaim :=
  ⟨⟨"", ""⟩, ⟨"unknown-template"⟩, ⟨⟨"unknown-params"⟩⟩⟩

/-- Template whose `parametersRef` names no registered parameter set. -/
def danglingTemplateW : ResourceClaim :=
  ⟨⟨"", ""⟩, ⟨"dangling-template"⟩, ⟨⟨"absent-params"⟩⟩⟩

/-- A manager holding every fixture parameter set and template. -/
def managerW : DynamicResourcesManager :=
  ⟨[("simple-params", simpleParamsW),
    ("nohostpath-params", noHostpathParamsW),
    ("cdi-params", cdiParamsW),
    ("novendor-params", noVendorParamsW),
    ("unknown-params", unknownSchemaParamsW)],
   [("simple-template", simpleTemplateW),
    ("nohostpath-template", noHostpathTemplateW),
    ("cdi-template", cdiTemplateW),
    ("novendor-template", noVendorTemplateW),
    ("unknown-template", unknownSchemaTemplateW),
    ("dangling-template", danglingTemplateW)]⟩

/-- C1: in any manager where template `tn` is registered, its
`parametersRef` names a registered parameter set with the simple-device
schema version, and the claim carries no direct claim name and names
template `tn`, resolution returns the `hostpath` value of the parameter
set's spec map verbatim with no error, and fails with the
missing-hostpath error (the MissingField "hostpath" failure) when the
`hostpath` key is absent. -/
theorem simple_device_resolution_hostpath
    (dm : DynamicResourcesManager) (claim : PodResourceClaim) (tn : String)
    (rt : ResourceClaim) (p : ClaimParameters)
    (hcn : claim.source.resourceClaimName = none)
    (htn : claim.source.resourceClaimTemplateName = some tn)
    (hrt : dm.resourceClaimTemplates.lookup tn = some rt)
    (hp : dm.resourceClaimParameters.lookup rt.spec.parametersRef.name = some p)
    (hapi : p.apiVersion = SimpleDeviceClaimParametersApiVersion) :
    (∀ v, p.spec.lookup "hostpath" = some v →
      ResolveK8sPodResourceClaimToDevice dm claim = (v, none)) ∧
    (p.spec.lookup "hostpath" = none →
      ResolveK8sPodResourceClaimToDevice dm claim =
        ("", some "missing hostpath in simple device resource claim parameters")) := by
  constructor
  · intro v hv
    simp [ResolveK8sPodResourceClaimToDevice,
      resolveK8sPodResourceClaimToResourceClaimTemplate,
      resolveResourceClaimTemplateToDevice, hcn, htn, hrt, hp, hapi, hv]
  · intro hv
    simp [ResolveK8sPodResourceClaimToDevice,
      resolveK8sPodResourceClaimToResourceClaimTemplate,
      resolveResourceClaimTemplateToDevice, hcn, htn, hrt, hp, hapi, hv]

/-- C1 witness: on the fixture manager, the simple-device template
resolves to the registered hostpath value, and the hostpath-less
parameter set produces the missing-hostpath failure. -/
theorem simple_device_resolution_hostpath_witness :
    ResolveK8sPodResourceClaimToDevice managerW
        ⟨"c", ⟨none, some "simple-template"⟩⟩ = ("/dev/foo", none) ∧
    ResolveK8sPodResourceClaimToDevice managerW
        ⟨"c", ⟨none, some "nohostpath-template"⟩⟩ =
      ("", some "missing hostpath in simple device resource claim parameters") :=
  ⟨(simple_device_resolution_hostpath managerW
      ⟨"c", ⟨none, some "simple-template"⟩⟩ "simple-template"
      simpleTemplateW simpleParamsW (by decide) (by decide) (by decide)
      (by decide) (by decide)).1 "/dev/foo" (by decide),
   (simple_device_resolution_hostpath managerW
      ⟨"c", ⟨none, some "nohostpath-template"⟩⟩ "nohostpath-template"
      noHostpathTemplateW noHostpathParamsW (by decide) (by decide) (by decide)
      (by decide) (by decide)).2 (by decide)⟩

/-- C2: in any manager where template `tn` is registered, its
`parametersRef` names a registered parameter set with the CDI schema
version, and the claim carries no direct claim name and names template
`tn`, if the spec map contains `device`, `vendor` and `name` then
resolution succeeds with exactly the string vendor/device=name. -/
theorem cdi_resolution_format
    (dm : DynamicResourcesManager) (claim : PodResourceClaim) (tn : String)
    (rt : ResourceClaim) (p : ClaimParameters) (d v n : String)
    (hcn : claim.source.resourceClaimName = none)
    (htn : claim.source.resourceClaimTemplateName = some tn)
    (hrt : dm.resourceClaimTemplates.lookup tn = some rt)
    (hp : dm.resourceClaimParameters.lookup rt.spec.parametersRef.name = some p)
    (hapi : p.apiVersion = CDIClaimParametersApiVersion)
    (hd : p.spec.lookup "device" = some d)
    (hv : p.spec.lookup "vendor" = some v)
    (hn : p.spec.lookup "name" = some n) :
    ResolveK8sPodResourceClaimToDevice dm claim =
      (v ++ "/" ++ d ++ "=" ++ n, none) := by
  simp [ResolveK8sPodResourceClaimToDevice,
    resolveK8sPodResourceClaimToResourceClaimTemplate,
    resolveResourceClaimTemplateToDevice,
    SimpleDeviceClaimParametersApiVersion, CDIClaimParametersApiVersion,
    hcn, htn, hrt, hp, hapi, hd, hv, hn]

/-- C2 witness: vendor acme, device gpu, name 0 resolve to the string
acme/gpu=0 on the fixture manager. -/
theorem cdi_resolution_format_witness :
    ResolveK8sPodResourceClaimToDevice managerW
      ⟨"c", ⟨none, some "cdi-template"⟩⟩ = ("acme/gpu=0", none) := by
  have h := cdi_resolution_format managerW ⟨"c", ⟨none, some "cdi-template"⟩⟩
    "cdi-template" cdiTemplateW cdiParamsW "gpu" "acme" "0"
    (by decide) (by decide) (by decide) (by decide) (by decide)
    (by decide) (by decide) (by decide)
  simpa using h

/-- C3: a claim whose direct resource-claim name is set always fails with
the resource-claim-should-be-nil error (the UnsupportedClaimShape
failure), whatever the registries hold and whether or not the template
name is also set. -/
theorem direct_claim_name_unsupported
    (dm : DynamicResourcesManager) (claim : PodResourceClaim) (nm : String)
    (h : claim.source.resourceClaimName = some nm) :
    ResolveK8sPodResourceClaimToDevice dm claim =
      ("", some (errorMsgTmpl "resource claim should be nil")) := by
  unfold ResolveK8sPodResourceClaimToDevice
  rw [h]

/-- C3 witness: a claim carrying a direct name is rejected on the fixture
manager even when it also names a registered template. -/
theorem direct_claim_name_unsupported_witness :
    ResolveK8sPodResourceClaimToDevice managerW
      ⟨"c", ⟨some "my-claim", some "simple-template"⟩⟩ =
      ("", some (errorMsgTmpl "resource claim should be nil")) :=
  direct_claim_name_unsupported managerW
    ⟨"c", ⟨some "my-claim", some "simple-template"⟩⟩ "my-claim" (by decide)

/-- C4: for a claim with no direct claim name, resolution fails with the
missing-template-name error (MalformedClaim) when no template name is
carried, with the source-not-found error (TemplateNotFound) when the
template name is not registered, and with the parameters-resolution error
(ParametersNotFound) when the template's `parametersRef` is not
registered. -/
theorem resolution_lookup_failures
    (dm : DynamicResourcesManager) (claim : PodResourceClaim)
    (hcn : claim.source.resourceClaimName = none) :
    (claim.source.resourceClaimTemplateName = none →
      ResolveK8sPodResourceClaimToDevice dm claim =
        ("", some (errorMsgTmpl "claim source missing template name"))) ∧
    (∀ tn, claim.source.resourceClaimTemplateName = some tn →
      dm.resourceClaimTemplates.lookup tn = none →
      ResolveK8sPodResourceClaimToDevice dm claim =
        ("", some (errorMsgTmpl "Pod Resource Claim Source not found"))) ∧
    (∀ tn rt, claim.source.resourceClaimTemplateName = some tn →
      dm.resourceClaimTemplates.lookup tn = some rt →
      dm.resourceClaimParameters.lookup rt.spec.parametersRef.name = none →
      ResolveK8sPodResourceClaimToDevice dm claim =
        ("", some "failed to resolve resource claim parameters")) := by
  refine ⟨?_, ?_, ?_⟩
  · intro htn
    simp [ResolveK8sPodResourceClaimToDevice,
      resolveK8sPodResourceClaimToResourceClaimTemplate, hcn, htn]
  · intro tn htn hmiss
    simp [ResolveK8sPodResourceClaimToDevice,
      resolveK8sPodResourceClaimToResourceClaimTemplate, hcn, htn, hmiss]
  · intro tn rt htn hrt hmiss
    simp [ResolveK8sPodResourceClaimToDevice,
      resolveK8sPodResourceClaimToResourceClaimTemplate,
      resolveResourceClaimTemplateToDevice, hcn, htn, hrt, hmiss]

/-- C4 witness: the three lookup-failure errors on the fixture manager —
no template name, an unregistered template name, and a registered template
whose `parametersRef` is unregistered. -/
theorem resolution_lookup_failures_witness :
    ResolveK8sPodResourceClaimToDevice managerW ⟨"c", ⟨none, none⟩⟩ =
      ("", some (errorMsgTmpl "claim source missing template name")) ∧
    ResolveK8sPodResourceClaimToDevice managerW
        ⟨"c", ⟨none, some "absent-template"⟩⟩ =
      ("", some (errorMsgTmpl "Pod Resource Claim Source not found")) ∧
    ResolveK8sPodResourceClaimToDevice managerW
        ⟨"c", ⟨none, some "dangling-template"⟩⟩ =
      ("", some "failed to resolve resource claim parameters") :=
  ⟨(resolution_lookup_failures managerW ⟨"c", ⟨none, none⟩⟩
      (by decide)).1 (by decide),
   (resolution_lookup_failures managerW ⟨"c", ⟨none, some "absent-template"⟩⟩
      (by decide)).2.1 "absent-template" (by decide) (by decide),
   (resolution_lookup_failures managerW ⟨"c", ⟨none, some "dangling-template"⟩⟩
      (by decide)).2.2 "dangling-template" danglingTemplateW
      (by decide) (by decide) (by decide)⟩

/-- C5: resolution through a registered CDI parameter set checks the keys
`device`, `vendor`, `name` in that fixed order and fails with the
missing-parameter error (MissingField) naming exactly the first missing
key: a missing `device` wins over everything, a missing `vendor` wins
over a missing `name`, and with `device` and `vendor` present a missing
`name` is reported. -/
theorem cdi_missing_field_order
    (dm : DynamicResourcesManager) (claim : PodResourceClaim) (tn : String)
    (rt : ResourceClaim) (p : ClaimParameters)
    (hcn : claim.source.resourceClaimName = none)
    (htn : claim.source.resourceClaimTemplateName = some tn)
    (hrt : dm.resourceClaimTemplates.lookup tn = some rt)
    (hp : dm.resourceClaimParameters.lookup rt.spec.parametersRef.name = some p)
    (hapi : p.apiVersion = CDIClaimParametersApiVersion) :
    (p.spec.lookup "device" = none →
      ResolveK8sPodResourceClaimToDevice dm claim =
        ("", some (errTmpl "device"))) ∧
    (∀ d, p.spec.lookup "device" = some d → p.spec.lookup "vendor" = none →
      ResolveK8sPodResourceClaimToDevice dm claim =
        ("", some (errTmpl "vendor"))) ∧
    (∀ d v, p.spec.lookup "device" = some d → p.spec.lookup "vendor" = some v →
      p.spec.lookup "name" = none →
      ResolveK8sPodResourceClaimToDevice dm claim =
        ("", some (errTmpl "name"))) := by
  refine ⟨?_, ?_, ?_⟩
  · intro hd
    simp [ResolveK8sPodResourceClaimToDevice,
      resolveK8sPodResourceClaimToResourceClaimTemplate,
      resolveResourceClaimTemplateToDevice,
      SimpleDeviceClaimParametersApiVersion, CDIClaimParametersApiVersion,
      hcn, htn, hrt, hp, hapi, hd]
  · intro d hd hv
    simp [ResolveK8sPodResourceClaimToDevice,
      resolveK8sPodResourceClaimToResourceClaimTemplate,
      resolveResourceClaimTemplateToDevice,
      SimpleDeviceClaimParametersApiVersion, CDIClaimParametersApiVersion,
      hcn, htn, hrt, hp, hapi, hd, hv]
  · intro d v hd hv hn
    simp [ResolveK8sPodResourceClaimToDevice,
      resolveK8sPodResourceClaimToResourceClaimTemplate,
      resolveResourceClaimTemplateToDevice,
      SimpleDeviceClaimParametersApiVersion, CDIClaimParametersApiVersion,
      hcn, htn, hrt, hp, hapi, hd, hv, hn]

/-- C5 witness: the fixture CDI parameter set containing `device` and
`name` but not `vendor` fails naming `vendor` specifically. -/
theorem cdi_missing_field_order_witness :
    ResolveK8sPodResourceClaimToDevice managerW
      ⟨"c", ⟨none, some "novendor-template"⟩⟩ =
      ("", some (errTmpl "vendor")) :=
  (cdi_missing_field_order managerW ⟨"c", ⟨none, some "novendor-template"⟩⟩
      "novendor-template" noVendorTemplateW noVendorParamsW
      (by decide) (by decide) (by decide) (by decide) (by decide)).2.1
    "gpu" (by decide) (by decide)

/-- C6: resolution through a registered parameter set whose schema version
is neither the simple-device identifier nor the CDI identifier fails with
the unsupported-apiVersion error (UnsupportedSchema) carrying that schema
value, regardless of which keys the spec map contains. -/
theorem unsupported_schema_rejected
    (dm : DynamicResourcesManager) (claim : PodResourceClaim) (tn : String)
    (rt : ResourceClaim) (p : ClaimParameters)
    (hcn : claim.source.resourceClaimName = none)
    (htn : claim.source.resourceClaimTemplateName = some tn)
    (hrt : dm.resourceClaimTemplates.lookup tn = some rt)
    (hp : dm.resourceClaimParameters.lookup rt.spec.parametersRef.name = some p)
    (h1 : p.apiVersion ≠ SimpleDeviceClaimParametersApiVersion)
    (h2 : p.apiVersion ≠ CDIClaimParametersApiVersion) :
    ResolveK8sPodResourceClaimToDevice dm claim =
      ("", some ("unsupported resource claim parameter apiVersion: "
        ++ p.apiVersion)) := by
  simp [ResolveK8sPodResourceClaimToDevice,
    resolveK8sPodResourceClaimToResourceClaimTemplate,
    resolveResourceClaimTemplateToDevice, hcn, htn, hrt, hp, h1, h2]

/-- C6 witness: the fixture parameter set with an unrecognized schema is
rejected with its schema value in the error, even though its spec holds
`hostpath`, `vendor`, `device` and `name` simultaneously. -/
theorem unsupported_schema_rejected_witness :
    ResolveK8sPodResourceClaimToDevice managerW
        ⟨"c", ⟨none, some "unknown-template"⟩⟩ =
      ("", some ("unsupported resource claim parameter apiVersion: "
        ++ "bogus.resource.podman.io/v1")) ∧
    unknownSchemaParamsW.spec.lookup "hostpath" = some "/dev/foo" ∧
    unknownSchemaParamsW.spec.lookup "vendor" = some "acme" ∧
    unknownSchemaParamsW.spec.lookup "device" = some "gpu" ∧
    unknownSchemaParamsW.spec.lookup "name" = some "0" :=
  ⟨unsupported_schema_rejected managerW ⟨"c", ⟨none, some "unknown-template"⟩⟩
      "unknown-template" unknownSchemaTemplateW unknownSchemaParamsW
      (by decide) (by decide) (by decide) (by decide) (by decide) (by decide),
   by decide, by decide, by decide, by decide⟩

/-- C7: in either registry, adding an entry under an unregistered name
succeeds and an immediate lookup of that name returns the stored value;
adding under an already-registered name fails with the duplicate error
(DuplicateEntry), leaves the whole manager unchanged, and the prior entry
is still what the lookup returns. -/
theorem registry_add_get_duplicate
    (dm : DynamicResourcesManager) (p : ClaimParameters) (rt : ResourceClaim) :
    (dm.resourceClaimParameters.lookup p.name = none →
      (AddClaimParameters dm p).2 = none ∧
      (AddClaimParameters dm p).1.resourceClaimParameters.lookup p.name
        = some p) ∧
    (∀ q, dm.resourceClaimParameters.lookup p.name = some q →
      AddClaimParameters dm p =
        (dm, some "duplicate resource claim parameters defined") ∧
      (AddClaimParameters dm p).1.resourceClaimParameters.lookup p.name
        = some q) ∧
    (dm.resourceClaimTemplates.lookup rt.name = none →
      (AddResourceClaimTemplate dm rt).2 = none ∧
      (AddResourceClaimTemplate dm rt).1.resourceClaimTemplates.lookup rt.name
        = some rt) ∧
    (∀ q, dm.resourceClaimTemplates.lookup rt.name = some q →
      AddResourceClaimTemplate dm rt =
        (dm, some "duplicate resource claim template defined") ∧
      (AddResourceClaimTemplate dm rt).1.resourceClaimTemplates.lookup rt.name
        = some q) := by
  refine ⟨?_, ?_, ?_, ?_⟩
  · intro h
    simp [AddClaimParameters, h, List.lookup]
  · intro q h
    simp [AddClaimParameters, h]
  · intro h
    simp [AddResourceClaimTemplate, h, List.lookup]
  · intro q h
    simp [AddResourceClaimTemplate, h]

/-- C7 witness: on the empty manager, adding the fixture parameter set and
template succeeds and each is immediately found; adding each a second time
fails with the duplicate error and leaves the stored entries unchanged. -/
theorem registry_add_get_duplicate_witness :
    ((AddClaimParameters NewDynamicDevicesResourceManager simpleParamsW).2
        = none ∧
      (AddClaimParameters NewDynamicDevicesResourceManager
          simpleParamsW).1.resourceClaimParameters.lookup "simple-params"
        = some simpleParamsW) ∧
    (AddClaimParameters
        (AddClaimParameters NewDynamicDevicesResourceManager simpleParamsW).1
        simpleParamsW =
      ((AddClaimParameters NewDynamicDevicesResourceManager simpleParamsW).1,
        some "duplicate resource claim parameters defined")) ∧
    ((AddResourceClaimTemplate NewDynamicDevicesResourceManager
          simpleTemplateW).2 = none ∧
      (AddResourceClaimTemplate NewDynamicDevicesResourceManager
          simpleTemplateW).1.resourceClaimTemplates.lookup "simple-template"
        = some simpleTemplateW) ∧
    (AddResourceClaimTemplate
        (AddResourceClaimTemplate NewDynamicDevicesResourceManager
          simpleTemplateW).1 simpleTemplateW =
      ((AddResourceClaimTemplate NewDynamicDevicesResourceManager
          simpleTemplateW).1,
        some "duplicate resource claim template defined")) :=
  ⟨(registry_add_get_duplicate NewDynamicDevicesResourceManager
      simpleParamsW simpleTemplateW).1 (by decide),
   ((registry_add_get_duplicate
      (AddClaimParameters NewDynamicDevicesResourceManager simpleParamsW).1
      simpleParamsW simpleTemplateW).2.1 simpleParamsW (by decide)).1,
   (registry_add_get_duplicate NewDynamicDevicesResourceManager
      simpleParamsW simpleTemplateW).2.2.1 (by decide),
   ((registry_add_get_duplicate
      (AddResourceClaimTemplate NewDynamicDevicesResourceManager
        simpleTemplateW).1
      simpleParamsW simpleTemplateW).2.2.2 simpleTemplateW (by decide)).1⟩

/-- Helper: whenever `resolveResourceClaimTemplateToDevice` reports an
error, its device-string component is the empty string. -/
theorem resolveResourceClaimTemplateToDevice_err_fst
    (dm : DynamicResourcesManager) (rt : ResourceClaim) (e : String)
    (h : (resolveResourceClaimTemplateToDevice dm rt).2 = some e) :
    (resolveResourceClaimTemplateToDevice dm rt).1 = "" := by
  unfold resolveResourceClaimTemplateToDevice at h ⊢
  cases hp : dm.resourceClaimParameters.lookup rt.spec.parametersRef.name with
  | none => simp [hp]
  | some parameters =>
    simp only [hp] at h ⊢
    by_cases h1 : parameters.apiVersion = SimpleDeviceClaimParametersApiVersion
    · simp only [if_pos h1] at h ⊢
      cases hh : parameters.spec.lookup "hostpath" with
      | none => simp [hh]
      | some d => simp [hh] at h
    · simp only [if_neg h1] at h ⊢
      by_cases h2 : parameters.apiVersion = CDIClaimParametersApiVersion
      · simp only [if_pos h2] at h ⊢
        cases hd : parameters.spec.lookup "device" with
        | none => simp [hd]
        | some d =>
          simp only [hd] at h ⊢
          cases hv : parameters.spec.lookup "vendor" with
          | none => simp [hv]
          | some v =>
            simp only [hv] at h ⊢
            cases hn : parameters.spec.lookup "name" with
            | none => simp [hn]
            | some n => simp [hn] at h
      · simp [if_neg h2]

/-- C8: resolution is a pure function of the two registries and the claim:
two managers with equal parameter registries and equal template registries
give identical resolution results (device string and error alike) on every
claim, so repeated invocations with no intervening mutation agree. -/
theorem resolution_deterministic
    (dm1 dm2 : DynamicResourcesManager) (claim : PodResourceClaim)
    (hp : dm1.resourceClaimParameters = dm2.resourceClaimParameters)
    (ht : dm1.resourceClaimTemplates = dm2.resourceClaimTemplates) :
    ResolveK8sPodResourceClaimToDevice dm1 claim =
      ResolveK8sPodResourceClaimToDevice dm2 claim := by
  cases dm1
  cases dm2
  simp only at hp ht
  subst hp
  subst ht
  rfl

/-- C8 witness: two syntactically different manager expressions with equal
registries resolve the fixture claim identically. -/
theorem resolution_deterministic_witness :
    ResolveK8sPodResourceClaimToDevice managerW
        ⟨"c", ⟨none, some "cdi-template"⟩⟩ =
      ResolveK8sPodResourceClaimToDevice
        ⟨managerW.resourceClaimParameters, managerW.resourceClaimTemplates⟩
        ⟨"c", ⟨none, some "cdi-template"⟩⟩ :=
  resolution_deterministic managerW
    ⟨managerW.resourceClaimParameters, managerW.resourceClaimTemplates⟩
    ⟨"c", ⟨none, some "cdi-template"⟩⟩ rfl rfl

/-- C9: whenever resolution fails, the returned device string is the empty
string — no partial device string accompanies an error. The embedding also
shows resolution never mutates the registries: `ResolveK8sPodResourceClaimToDevice`
only reads `dm` and returns no updated manager, mirroring the Go methods,
which never assign into either map. -/
theorem resolution_error_empty_device
    (dm : DynamicResourcesManager) (claim : PodResourceClaim) (e : String)
    (h : (ResolveK8sPodResourceClaimToDevice dm claim).2 = some e) :
    (ResolveK8sPodResourceClaimToDevice dm claim).1 = "" := by
  unfold ResolveK8sPodResourceClaimToDevice at h ⊢
  cases hcn : claim.source.resourceClaimName with
  | some nm => simp [hcn]
  | none =>
    simp only [hcn] at h ⊢
    cases hr : resolveK8sPodResourceClaimToResourceClaimTemplate dm claim with
    | mk rt errOpt =>
      cases errOpt with
      | some err => simp [hr]
      | none =>
        simp only [hr] at h ⊢
        exact resolveResourceClaimTemplateToDevice_err_fst dm rt e h

/-- C9 witness: a failing resolution on the fixture manager (unregistered
template name) returns the empty device string. -/
theorem resolution_error_empty_device_witness :
    (ResolveK8sPodResourceClaimToDevice managerW
      ⟨"c", ⟨none, some "absent-template"⟩⟩).1 = "" :=
  resolution_error_empty_device managerW ⟨"c", ⟨none, some "absent-template"⟩⟩
    (errorMsgTmpl "Pod Resource Claim Source not found") (by decide)

/-- C10: registration never inspects the schema version or the spec keys:
`AddClaimParameters` succeeds exactly when the parameter set's name is not
yet registered, and `AddResourceClaimTemplate` succeeds exactly when the
template's name is not yet registered — failure happens if and only if the
name is a duplicate. -/
theorem add_fails_iff_duplicate
    (dm : DynamicResourcesManager) (p : ClaimParameters) (rt : ResourceClaim) :
    ((AddClaimParameters dm p).2 = none ↔
      dm.resourceClaimParameters.lookup p.name = none) ∧
    ((AddResourceClaimTemplate dm rt).2 = none ↔
      dm.resourceClaimTemplates.lookup rt.name = none) := by
  constructor
  · unfold AddClaimParameters
    cases h : dm.resourceClaimParameters.lookup p.name <;> simp [h]
  · unfold AddResourceClaimTemplate
    cases h : dm.resourceClaimTemplates.lookup rt.name <;> simp [h]

end Resource
